import Mathlib

/-!
Shallow embedding of `src/palette/__init__.py` (the whole repository is this
one module).  Channel values, coordinates and alpha are modelled as exact
rationals, the usual idealisation of Python floats.  The only operations of
the source that have no exact rational meaning are the two transcendental
power maps used by the sRGB transfer functions, `c ** (1 / 2.4)` and
`c ** 2.4`; they are kept as an explicit parameter (`Gamma`) of every
definition that reaches them, and the closed theorems below either hold for
every choice of that parameter or only ever evaluate the transfer functions
on arguments that stay in their linear branch, where the parameter is not
consulted.
-/

deriving instance DecidableEq for Except

namespace Palette

/-- Errors raised by the source.  `ValueError("Invalid hex color")` and the
`ValueError` of a failed `int(_, 16)` parse are the spec's `InvalidFormat`;
`ValueError("Outside of valid range")` from `clamped_property` is the spec's
`OutOfRange`; the `KeyError` escaping `ColorSpace.__getitem__` is the closest
the source comes to the spec's `UnknownAxis`. -/
inductive PErr where
  | invalidFormat
  | outOfRange
  | keyError
deriving DecidableEq

/-- The six projection names that ever appear as keys of `Color.spaces`
(they are the `__name__`s of the `@colorspace`-decorated methods). -/
inductive SpaceName where
  | srgb
  | linear_rgb
  | rgb8
  | hls
  | hsl
  | yiq
deriving DecidableEq

/-- The source stores `workspace` as an arbitrary string (default `"srgb"`).
Reading `Color.rgb` dispatches to `getattr(self, self.workspace)`; for any
workspace other than `"srgb"` or `"linear_rgb"` that read recurses forever
(e.g. the `rgb8` getter itself reads `self.rgb`), so the model restricts the
field to the two terminating values. -/
inductive Workspace where
  | srgb
  | linear_rgb
deriving DecidableEq

/-- Model of a `ColorSpace` instance: its `name`, its `axes` list and its
`coords` dict (kept as the association list the constructor receives; the
axes never repeat, so association-list lookup agrees with dict lookup).
The `parent` back-reference is not stored; write-back is modelled by
functions that take the parent `Color` explicitly. -/
structure CSpace where
  name : SpaceName
  axes : List String
  coords : List (String × ℚ)
deriving DecidableEq

/-- `ColorSpace.__init__`: `axes = [c[0] for c in coords]`,
`coords = dict(coords)`. -/
def CSpace.make (n : SpaceName) (cs : List (String × ℚ)) : CSpace :=
  ⟨n, cs.map Prod.fst, cs⟩

/-- Dict lookup `self.coords.get(k)`. -/
def CSpace.lookup (s : CSpace) (k : String) : Option ℚ :=
  (s.coords.find? (fun p => p.1 == k)).map Prod.snd

/-- `ColorSpace.__getattr__` for a name `k` that is not an instance
attribute (`parent`, `name`, `axes`, `coords` are found by normal lookup
before `__getattr__` runs): if `k` is in `coords` its value is returned;
otherwise the method falls off its end, so Python returns `None` — modelled
as `none`.  No exception is raised on an unknown axis. -/
def CSpace.attr (s : CSpace) (k : String) : Option ℚ :=
  s.lookup k

/-- `ColorSpace.__getitem__`: `getattr(self, 'coords', k)[k]` — the
attribute `coords` always exists, so this is `self.coords[k]`, raising
`KeyError` when `k` is not an axis. -/
def CSpace.getItem (s : CSpace) (k : String) : Except PErr ℚ :=
  match s.lookup k with
  | some v => Except.ok v
  | none => Except.error PErr.keyError

/-- Reading coordinate `k` that is known to be present (the source writes
`space.r` etc. only on spaces that carry that axis).  The `getD 0` default
covers the unreachable missing case, where the source would instead crash
with a `TypeError` on the `None` returned by `__getattr__`. -/
def CSpace.coordD (s : CSpace) (k : String) : ℚ :=
  (s.lookup k).getD 0

/-- `tuple(self)` / `__iter__`: the coordinates in `axes` order.  Every
reachable space has `axes = coords.map Prod.fst`, so the `filterMap` drops
nothing. -/
def CSpace.tuple (s : CSpace) : List ℚ :=
  s.axes.filterMap s.lookup

/-- `self.coords[k] = v` for an axis `k` already present. -/
def CSpace.updateCoord (s : CSpace) (k : String) (v : ℚ) : CSpace :=
  {s with coords := s.coords.map (fun p => if p.1 == k then (p.1, v) else p)}

/-- The `spaces` dict of a `Color`, keyed by the six possible names. -/
structure Cache where
  srgb : Option CSpace
  linear_rgb : Option CSpace
  rgb8 : Option CSpace
  hls : Option CSpace
  hsl : Option CSpace
  yiq : Option CSpace
deriving DecidableEq

/-- The empty dict `{}` assigned by `__init__` and by every projection
setter. -/
def Cache.empty : Cache :=
  ⟨none, none, none, none, none, none⟩

/-- Dict lookup `self.spaces.get(name)`. -/
def Cache.find (c : Cache) : SpaceName → Option CSpace
  | SpaceName.srgb => c.srgb
  | SpaceName.linear_rgb => c.linear_rgb
  | SpaceName.rgb8 => c.rgb8
  | SpaceName.hls => c.hls
  | SpaceName.hsl => c.hsl
  | SpaceName.yiq => c.yiq

/-- Dict store `self.spaces[name] = space`. -/
def Cache.store (c : Cache) (n : SpaceName) (v : CSpace) : Cache :=
  match n with
  | SpaceName.srgb => {c with srgb := some v}
  | SpaceName.linear_rgb => {c with linear_rgb := some v}
  | SpaceName.rgb8 => {c with rgb8 := some v}
  | SpaceName.hls => {c with hls := some v}
  | SpaceName.hsl => {c with hsl := some v}
  | SpaceName.yiq => {c with yiq := some v}

/-- A `Color` instance: the canonical channels `_r`, `_g`, `_b` (read
through the `r`/`g`/`b` properties), the plain attribute `a`, the
`workspace` name and the `spaces` cache.  The source also initialises a
backing field `_a = 0` that nothing ever reads or writes again; it is
omitted here (see the alpha claims). -/
structure Color where
  r : ℚ
  g : ℚ
  b : ℚ
  a : ℚ
  workspace : Workspace
  spaces : Cache
deriving DecidableEq

/-- The two transcendental power maps of the sRGB transfer functions:
`powInvG` models `c ** (1 / 2.4)` and `powG` models `c ** 2.4`.  They are
Python float builtins, external to the repository and with no exact
rational model, so they are threaded as a parameter. -/
structure Gamma where
  powInvG : ℚ → ℚ
  powG : ℚ → ℚ

/-- A computable stand-in used only to close concrete theorems.  It agrees
with the true transcendental pair at the fixed points 0 and 1, and every
closed theorem below evaluates the transfer functions only on arguments
that take the linear branch (or not at all), so the stand-in's values are
never consulted where they differ from the true maps. -/
def gammaId : Gamma :=
  ⟨fun x => x, fun x => x⟩

/-- The gamma-encode lambda of the `srgb` getter:
`12.92 * c if c <= 0.0031308 else 1.055 * c ** (1/2.4) - 0.055`. -/
def txEnc (γ : Gamma) (c : ℚ) : ℚ :=
  if c ≤ 0.0031308 then 12.92 * c else 1.055 * γ.powInvG c - 0.055

/-- The gamma-decode lambda of the `srgb` setter:
`c / 12.92 if c <= 0.04045 else ((c + 0.055) / 1.055) ** 2.4`. -/
def txDec (γ : Gamma) (c : ℚ) : ℚ :=
  if c ≤ 0.04045 then c / 12.92 else γ.powG ((c + 0.055) / 1.055)

/-- Python's `x % 1.0`: the fractional part `x - floor x` (Python's `%`
takes the sign of the divisor, so this holds for every real `x`). -/
def pyMod1 (x : ℚ) : ℚ :=
  x - ⌊x⌋

/-- Python 3's `round` to the nearest integer, ties to even (the source
calls `round(v * 255)` with one argument). -/
def pyRound (q : ℚ) : ℤ :=
  let f := ⌊q⌋
  let r := q - f
  if r < 1 / 2 then f
  else if r > 1 / 2 then f + 1
  else if f % 2 = 0 then f else f + 1

/-- Modelled from the spec: the source calls the Python standard library
`colorsys.rgb_to_hls`, which is outside this repository; this is the
standard RGB→HLS transform that function implements. -/
def rgb_to_hls (r g b : ℚ) : ℚ × ℚ × ℚ :=
  let maxc := max r (max g b)
  let minc := min r (min g b)
  let sumc := maxc + minc
  let rangec := maxc - minc
  let l := sumc / 2
  if minc = maxc then (0, l, 0)
  else
    let s := if l ≤ 1 / 2 then rangec / sumc else rangec / (2 - sumc)
    let rc := (maxc - r) / rangec
    let gc := (maxc - g) / rangec
    let bc := (maxc - b) / rangec
    let h0 := if r = maxc then bc - gc else if g = maxc then 2 + rc - bc else 4 + gc - rc
    (pyMod1 (h0 / 6), l, s)

/-- Modelled from the spec: the helper `_v` of `colorsys.hls_to_rgb`
(standard HLS→RGB transform), with the float constants `ONE_THIRD` etc.
idealised to exact rationals. -/
def hlsV (m1 m2 hue : ℚ) : ℚ :=
  let h := pyMod1 hue
  if h < 1 / 6 then m1 + (m2 - m1) * h * 6
  else if h < 1 / 2 then m2
  else if h < 2 / 3 then m1 + (m2 - m1) * (2 / 3 - h) * 6
  else m1

/-- Modelled from the spec: `colorsys.hls_to_rgb`, the standard HLS→RGB
transform named by the spec's conversion table. -/
def hls_to_rgb (h l s : ℚ) : ℚ × ℚ × ℚ :=
  if s = 0 then (l, l, l)
  else
    let m2 := if l ≤ 1 / 2 then l * (1 + s) else l + s - l * s
    let m1 := 2 * l - m2
    (hlsV m1 m2 (h + 1 / 3), hlsV m1 m2 h, hlsV m1 m2 (h - 1 / 3))

/-- Modelled from the spec: `colorsys.rgb_to_yiq`, the standard RGB→YIQ
transform named by the spec's conversion table. -/
def rgb_to_yiq (r g b : ℚ) : ℚ × ℚ × ℚ :=
  (0.30 * r + 0.59 * g + 0.11 * b,
   0.74 * (r - b) - 0.27 * (g - b),
   0.48 * (r - b) + 0.41 * (g - b))

/-- Modelled from the spec: `colorsys.yiq_to_rgb`, the standard YIQ→RGB
transform named by the spec's conversion table (each output clamped to
[0, 1], as in the library). -/
def yiq_to_rgb (y i q : ℚ) : ℚ × ℚ × ℚ :=
  let r := y + 0.9468822170900693 * i + 0.6235565819861433 * q
  let g := y - 0.27478764629897834 * i - 0.6356910791873801 * q
  let b := y - 1.1085450346420322 * i + 1.7090069284064666 * q
  (min 1 (max 0 r), min 1 (max 0 g), min 1 (max 0 b))

/-- The setter produced by `clamped_property("_r", 0, 1)`: validate, then
store.  Note that it does not touch `self.spaces`. -/
def setR (c : Color) (v : ℚ) : Color × Option PErr :=
  if v < 0 ∨ v > 1 then (c, some PErr.outOfRange) else ({c with r := v}, none)

/-- The setter produced by `clamped_property("_g", 0, 1)`. -/
def setG (c : Color) (v : ℚ) : Color × Option PErr :=
  if v < 0 ∨ v > 1 then (c, some PErr.outOfRange) else ({c with g := v}, none)

/-- The setter produced by `clamped_property("_b", 0, 1)`. -/
def setB (c : Color) (v : ℚ) : Color × Option PErr :=
  if v < 0 ∨ v > 1 then (c, some PErr.outOfRange) else ({c with b := v}, none)

/-- `self.a = v`: `a` is a plain instance attribute of `Color` (no property
named `a` is defined on the class), so the assignment stores `v` with no
validation and touches nothing else. -/
def setA (c : Color) (v : ℚ) : Color :=
  {c with a := v}

/-- Sequencing of statements under Python exception semantics: if the first
statement raised, later statements do not run but the mutations already
performed persist. -/
def andThen (r : Color × Option PErr) (f : Color → Color × Option PErr) :
    Color × Option PErr :=
  match r with
  | (c, some e) => (c, some e)
  | (c, none) => f c

/-- The `linear_rgb` getter body: `[("r", self.r), ("g", self.g), ("b", self.b)]`. -/
def linearCoords (c : Color) : List (String × ℚ) :=
  [("r", c.r), ("g", c.g), ("b", c.b)]

/-- The `srgb` getter body: per-channel gamma encode of the canonical
channels. -/
def srgbCoords (γ : Gamma) (c : Color) : List (String × ℚ) :=
  [("r", txEnc γ c.r), ("g", txEnc γ c.g), ("b", txEnc γ c.b)]

/-- The `@colorspace` property read for `linear_rgb`: return the cached
instance, or compute, cache and return a fresh one. -/
def linearGet (c : Color) : CSpace × Color :=
  match c.spaces.linear_rgb with
  | some s => (s, c)
  | none =>
    let s := CSpace.make SpaceName.linear_rgb (linearCoords c)
    (s, {c with spaces := c.spaces.store SpaceName.linear_rgb s})

/-- The `@colorspace` property read for `srgb`. -/
def srgbGet (γ : Gamma) (c : Color) : CSpace × Color :=
  match c.spaces.srgb with
  | some s => (s, c)
  | none =>
    let s := CSpace.make SpaceName.srgb (srgbCoords γ c)
    (s, {c with spaces := c.spaces.store SpaceName.srgb s})

/-- The `rgb` property read: `getattr(self, self.workspace)`. -/
def rgbGet (γ : Gamma) (c : Color) : CSpace × Color :=
  match c.workspace with
  | Workspace.srgb => srgbGet γ c
  | Workspace.linear_rgb => linearGet c

/-- The `@colorspace` property read for `rgb8`: on a miss the body reads
`self.rgb` (caching that projection as a side effect) and rounds each
coordinate times 255. -/
def rgb8Get (γ : Gamma) (c : Color) : CSpace × Color :=
  match c.spaces.rgb8 with
  | some s => (s, c)
  | none =>
    let p := rgbGet γ c
    let s := CSpace.make SpaceName.rgb8
      [("r", (pyRound (p.1.coordD ("r") * 255) : ℚ)),
       ("g", (pyRound (p.1.coordD ("g") * 255) : ℚ)),
       ("b", (pyRound (p.1.coordD ("b") * 255) : ℚ))]
    (s, {p.2 with spaces := p.2.spaces.store SpaceName.rgb8 s})

/-- The `@colorspace` property read for `hls`: on a miss the body applies
`colorsys.rgb_to_hls` to the coordinates of `self.rgb` (the workspace
projection, cached as a side effect). -/
def hlsGet (γ : Gamma) (c : Color) : CSpace × Color :=
  match c.spaces.hls with
  | some s => (s, c)
  | none =>
    let p := rgbGet γ c
    let t := rgb_to_hls (p.1.coordD ("r")) (p.1.coordD ("g")) (p.1.coordD ("b"))
    let s := CSpace.make SpaceName.hls [("h", t.1), ("l", t.2.1), ("s", t.2.2)]
    (s, {p.2 with spaces := p.2.spaces.store SpaceName.hls s})

/-- The `@colorspace` property read for `hsl`: on a miss the body reads
`tuple(self.hls)` (caching `hls`, and transitively the workspace
projection) and reorders the coordinates to (h, s, l). -/
def hslGet (γ : Gamma) (c : Color) : CSpace × Color :=
  match c.spaces.hsl with
  | some s => (s, c)
  | none =>
    let p := hlsGet γ c
    let t := p.1.tuple
    let s := CSpace.make SpaceName.hsl
      [("h", t.getD 0 0), ("s", t.getD 2 0), ("l", t.getD 1 0)]
    (s, {p.2 with spaces := p.2.spaces.store SpaceName.hsl s})

/-- The `@colorspace` property read for `yiq`. -/
def yiqGet (γ : Gamma) (c : Color) : CSpace × Color :=
  match c.spaces.yiq with
  | some s => (s, c)
  | none =>
    let p := rgbGet γ c
    let t := rgb_to_yiq (p.1.coordD ("r")) (p.1.coordD ("g")) (p.1.coordD ("b"))
    let s := CSpace.make SpaceName.yiq [("y", t.1), ("i", t.2.1), ("q", t.2.2)]
    (s, {p.2 with spaces := p.2.spaces.store SpaceName.yiq s})

/-- `getattr(self, name)` for the six projection properties. -/
def getSpace (γ : Gamma) (n : SpaceName) (c : Color) : CSpace × Color :=
  match n with
  | SpaceName.srgb => srgbGet γ c
  | SpaceName.linear_rgb => linearGet c
  | SpaceName.rgb8 => rgb8Get γ c
  | SpaceName.hls => hlsGet γ c
  | SpaceName.hsl => hslGet γ c
  | SpaceName.yiq => yiqGet γ c

/-- The `linear_rgb` setter: `self.spaces = {}` and then the unpacking
assignment `self.r, self.g, self.b = v`, which runs the three clamped
setters left to right (an exception mid-way leaves the earlier assignments
in place). -/
def linearSet (c : Color) (v : ℚ × ℚ × ℚ) : Color × Option PErr :=
  let c0 := {c with spaces := Cache.empty}
  andThen (setR c0 v.1) (fun c1 =>
    andThen (setG c1 v.2.1) (fun c2 => setB c2 v.2.2))

/-- The `srgb` setter: `self.spaces = {}`, then `self.r = tx(v[0])` etc.
with the gamma-decode lambda, again left to right through the clamped
setters. -/
def srgbSet (γ : Gamma) (c : Color) (v : ℚ × ℚ × ℚ) : Color × Option PErr :=
  let c0 := {c with spaces := Cache.empty}
  andThen (setR c0 (txDec γ v.1)) (fun c1 =>
    andThen (setG c1 (txDec γ v.2.1)) (fun c2 => setB c2 (txDec γ v.2.2)))

/-- The `rgb` setter: `setattr(self, self.workspace, v)`. -/
def rgbSet (γ : Gamma) (c : Color) (v : ℚ × ℚ × ℚ) : Color × Option PErr :=
  match c.workspace with
  | Workspace.srgb => srgbSet γ c v
  | Workspace.linear_rgb => linearSet c v

/-- The `rgb8` setter: `self.spaces = {}`, then
`self.rgb = (v[0] / 255.0, v[1] / 255.0, v[2] / 255.0)`. -/
def rgb8Set (γ : Gamma) (c : Color) (v : ℚ × ℚ × ℚ) : Color × Option PErr :=
  let c0 := {c with spaces := Cache.empty}
  rgbSet γ c0 (v.1 / 255, v.2.1 / 255, v.2.2 / 255)

/-- The `hls` setter: `self.spaces = {}`, then
`self.rgb = colorsys.hls_to_rgb(*v)`. -/
def hlsSet (γ : Gamma) (c : Color) (v : ℚ × ℚ × ℚ) : Color × Option PErr :=
  let c0 := {c with spaces := Cache.empty}
  rgbSet γ c0 (hls_to_rgb v.1 v.2.1 v.2.2)

/-- The `hsl` setter: `self.spaces = {}`, then
`self.hls = (v[0], v[2], v[1])`. -/
def hslSet (γ : Gamma) (c : Color) (v : ℚ × ℚ × ℚ) : Color × Option PErr :=
  let c0 := {c with spaces := Cache.empty}
  hlsSet γ c0 (v.1, v.2.2, v.2.1)

/-- The `yiq` setter: `self.spaces = {}`, then
`self.rgb = colorsys.yiq_to_rgb(*v)`. -/
def yiqSet (γ : Gamma) (c : Color) (v : ℚ × ℚ × ℚ) : Color × Option PErr :=
  let c0 := {c with spaces := Cache.empty}
  rgbSet γ c0 (yiq_to_rgb v.1 v.2.1 v.2.2)

/-- `setattr(self, name, v)` for the six projection properties. -/
def setSpace (γ : Gamma) (n : SpaceName) (c : Color) (v : ℚ × ℚ × ℚ) :
    Color × Option PErr :=
  match n with
  | SpaceName.srgb => srgbSet γ c v
  | SpaceName.linear_rgb => linearSet c v
  | SpaceName.rgb8 => rgb8Set γ c v
  | SpaceName.hls => hlsSet γ c v
  | SpaceName.hsl => hslSet γ c v
  | SpaceName.yiq => yiqSet γ c v

/-- The 3-element tuple `tuple(self)` of a space whose axes list has length
three (every reachable space); the defaults are unreachable. -/
def listToTriple (t : List ℚ) : ℚ × ℚ × ℚ :=
  (t.getD 0 0, t.getD 1 0, t.getD 2 0)

/-- `ColorSpace.__setattr__` for a name `k`: when `coords` exists and `k`
is one of its keys, update the coordinate and write the full updated tuple
back to the parent through `setattr(self.parent, self.name, tuple(self))`;
otherwise the assignment just creates an ordinary instance attribute,
modelled as a no-op on the coordinates and the parent. -/
def spaceSetAttr (γ : Gamma) (parent : Color) (s : CSpace) (k : String) (v : ℚ) :
    CSpace × Color × Option PErr :=
  if (s.coords.find? (fun p => p.1 == k)).isSome then
    let s1 := s.updateCoord k v
    let r := setSpace γ s.name parent (listToTriple s1.tuple)
    (s1, r.1, r.2)
  else
    (s, parent, none)

/-- Value of a single hexadecimal digit, upper or lower case. -/
def hexDigitVal (c : Char) : Option ℕ :=
  if '0' ≤ c ∧ c ≤ '9' then some (c.toNat - 48)
  else if 'a' ≤ c ∧ c ≤ 'f' then some (c.toNat - 87)
  else if 'A' ≤ c ∧ c ≤ 'F' then some (c.toNat - 55)
  else none

/-- `int(s, 16)` restricted to plain digit strings: the value when `s` is a
non-empty string of hexadecimal digits, `none` (a `ValueError`) otherwise. -/
def parseHex (s : List Char) : Option ℕ :=
  match s with
  | [] => none
  | _ =>
    s.foldl (fun acc c =>
      match acc, hexDigitVal c with
      | some a, some d => some (a * 16 + d)
      | _, _ => none) (some 0)

/-- `h.strip("#")`: remove every leading and trailing `'#'`. -/
def stripHash (h : String) : List Char :=
  ((h.toList.dropWhile (fun c => c == '#')).reverse.dropWhile
    (fun c => c == '#')).reverse

/-- `hex_to_rgb`: strip `the '#'`, reject a stripped length that is not a
multiple of three, cut the digits into three equal groups, double each
group when the stripped length is exactly three, and parse each group in
base 16. -/
def hex_to_rgb (h : String) : Except PErr (ℕ × ℕ × ℕ) :=
  let l := stripHash h
  if l.length % 3 ≠ 0 then Except.error PErr.invalidFormat
  else
    let i := l.length / 3
    let v0 := (l.take i)
    let v1 := ((l.drop i).take i)
    let v2 := ((l.drop (2 * i)).take i)
    let w := if l.length = 3 then (v0 ++ v0, v1 ++ v1, v2 ++ v2) else (v0, v1, v2)
    match parseHex w.1, parseHex w.2.1, parseHex w.2.2 with
    | some a, some b, some c => Except.ok (a, b, c)
    | _, _, _ => Except.error PErr.invalidFormat

/-- The state `__init__` builds before looking at `descr` and the keyword
arguments: `spaces = {}`, `_r = _g = _b = _a = 0`, `self.a = a`,
`self.workspace = workspace`. -/
def colorInit0 (a : ℚ) (w : Workspace) : Color :=
  ⟨0, 0, 0, a, w, Cache.empty⟩

/-- `Color(descr, a, workspace)` for a string argument: after the default
initialisation, the string is parsed and assigned to `self.rgb8` only when
it is non-empty and starts with `'#'`; any other string is silently
ignored (the keyword loop iterates over nothing). -/
def colorNewStr (γ : Gamma) (descr : String) (a : ℚ) (w : Workspace) :
    Color × Option PErr :=
  let c := colorInit0 a w
  if descr.toList ≠ [] ∧ descr.toList.headD (' ') = '#' then
    match hex_to_rgb descr with
    | Except.error e => (c, some e)
    | Except.ok t => rgb8Set γ c ((t.1 : ℚ), (t.2.1 : ℚ), (t.2.2 : ℚ))
  else (c, none)

/-- `Color(**{name: v}, a, workspace)` for a single space keyword: the loop
body first evaluates `getattr(self, k)` (reading — and caching — the
projection) for the `isinstance` test, then runs `setattr(self, k, v)`. -/
def colorNewSpace (γ : Gamma) (n : SpaceName) (v : ℚ × ℚ × ℚ) (a : ℚ)
    (w : Workspace) : Color × Option PErr :=
  let c := colorInit0 a w
  let p := getSpace γ n c
  setSpace γ n p.2 v

/-- `"%02x"` applied to an integer: lowercase hexadecimal, zero-padded to
width two. -/
def fmt02x (n : ℤ) : String :=
  if n < 0 then String.mk ('-' :: Nat.toDigits 16 n.natAbs)
  else
    let d := Nat.toDigits 16 n.toNat
    String.mk (if d.length < 2 then '0' :: d else d)

/-- The `hex` property: `"#%02x%02x%02x" % (self.rgb8.r, self.rgb8.g,
self.rgb8.b)` (reading `rgb8` caches it, and transitively the workspace
projection).  The `rgb8` coordinates are integral by construction, so
taking their floor recovers the integer being formatted. -/
def hexGet (γ : Gamma) (c : Color) : String × Color :=
  let p := rgb8Get γ c
  ("#" ++ fmt02x ⌊p.1.coordD ("r")⌋ ++ fmt02x ⌊p.1.coordD ("g")⌋
     ++ fmt02x ⌊p.1.coordD ("b")⌋, p.2)

/-- What the `rgb` setter stores in the canonical channels: gamma decode
when the workspace is `srgb`, identity when it is `linear_rgb`.  Stated
separately from the setters so the write-back theorems compare two
independent definitions. -/
def rgbWriteBack (γ : Gamma) (w : Workspace) (t : ℚ × ℚ × ℚ) : ℚ × ℚ × ℚ :=
  match w with
  | Workspace.srgb => (txDec γ t.1, txDec γ t.2.1, txDec γ t.2.2)
  | Workspace.linear_rgb => t

/-- The canonical channels a successful assignment of tuple `t` to the
named projection produces, per the spec's write-back column composed with
the `rgb` alias: `linear_rgb` and `srgb` write the channels directly, the
other spaces route through `self.rgb` and hence through the workspace. -/
def specWriteBack (γ : Gamma) (w : Workspace) (n : SpaceName) (t : ℚ × ℚ × ℚ) :
    ℚ × ℚ × ℚ :=
  match n with
  | SpaceName.linear_rgb => t
  | SpaceName.srgb => (txDec γ t.1, txDec γ t.2.1, txDec γ t.2.2)
  | SpaceName.rgb8 => rgbWriteBack γ w (t.1 / 255, t.2.1 / 255, t.2.2 / 255)
  | SpaceName.hls => rgbWriteBack γ w (hls_to_rgb t.1 t.2.1 t.2.2)
  | SpaceName.hsl => rgbWriteBack γ w (hls_to_rgb t.1 t.2.2 t.2.1)
  | SpaceName.yiq => rgbWriteBack γ w (yiq_to_rgb t.1 t.2.1 t.2.2)

/-- All three components lie in the unit interval, the condition under
which the three clamped channel setters all succeed. -/
def inUnit (t : ℚ × ℚ × ℚ) : Prop :=
  0 ≤ t.1 ∧ t.1 ≤ 1 ∧ 0 ≤ t.2.1 ∧ t.2.1 ≤ 1 ∧ 0 ≤ t.2.2 ∧ t.2.2 ≤ 1

instance (t : ℚ × ℚ × ℚ) : Decidable (inUnit t) := by
  unfold inUnit
  infer_instance

/-- Scenario for the cache-invalidation claim:
`c = Color(linear_rgb=(1/4, 1/2, 3/4))`. -/
def c1Color0 : Color :=
  (colorNewSpace gammaId SpaceName.linear_rgb (1 / 4, 1 / 2, 3 / 4) 1
    Workspace.srgb).1

/-- The same color after reading (and thereby caching) `c.linear_rgb`. -/
def c1Color1 : Color :=
  (linearGet c1Color0).2

/-- The channel assignment `c.r = 9/10` on the color with the cached
projection. -/
def c1SetResult : Color × Option PErr :=
  setR c1Color1 (9 / 10)

/-- Scenario for the hls-derivation claim:
`c = Color(linear_rgb=(0.001, 0.002, 0.003))`, a color whose gamma-encoded
channels all stay in the linear segment of the transfer function. -/
def c2Color : Color :=
  (colorNewSpace gammaId SpaceName.linear_rgb (1 / 1000, 2 / 1000, 3 / 1000) 1
    Workspace.srgb).1

/-- Scenario for the hex round-trip claim: `Color("0a0bcc")`, a valid
6-digit hex string without the leading `'#'`. -/
def c3Result : Color × Option PErr :=
  colorNewStr gammaId ("0a0bcc") 1 Workspace.srgb

/-- Scenario for the axis-lookup claim: the `linear_rgb` projection of a
freshly constructed black color. -/
def c4Space : CSpace :=
  (linearGet (colorInit0 1 Workspace.srgb)).1

/-- Scenario for the partial-failure claim: a color with channels
(1/4, 1/4, 1/4) whose `linear_rgb` projection has been read and cached. -/
def c5Color0 : Color :=
  (linearGet ⟨1 / 4, 1 / 4, 1 / 4, 1, Workspace.srgb, Cache.empty⟩).2

/-- The failing assignment `c.linear_rgb = (1/2, 3/2, 1/2)` (the middle
component is out of range). -/
def c5Result : Color × Option PErr :=
  linearSet c5Color0 (1 / 2, 3 / 2, 1 / 2)

/-- Scenario for the hash-optional claim: `Color("0a0a0a")`. -/
def c7NoHash : Color × Option PErr :=
  colorNewStr gammaId ("0a0a0a") 1 Workspace.srgb

/-- Scenario for the hash-optional claim: `Color("#0a0a0a")`.  All three
8-bit values are 10, so the gamma decode stays in its linear branch and the
channels are exactly `10 / (255 * 12.92) = 50/16473`. -/
def c7WithHash : Color × Option PErr :=
  colorNewStr gammaId ("#0a0a0a") 1 Workspace.srgb

end Palette

namespace Palette

theorem setR_ok (c : Color) (v : ℚ) (h0 : 0 ≤ v) (h1 : v ≤ 1) :
    setR c v = ({c with r := v}, none) := by
  unfold setR
  rw [if_neg]
  push_neg
  exact ⟨h0, h1⟩

theorem setG_ok (c : Color) (v : ℚ) (h0 : 0 ≤ v) (h1 : v ≤ 1) :
    setG c v = ({c with g := v}, none) := by
  unfold setG
  rw [if_neg]
  push_neg
  exact ⟨h0, h1⟩

theorem setB_ok (c : Color) (v : ℚ) (h0 : 0 ≤ v) (h1 : v ≤ 1) :
    setB c v = ({c with b := v}, none) := by
  unfold setB
  rw [if_neg]
  push_neg
  exact ⟨h0, h1⟩

theorem linearSet_ok (c : Color) (v : ℚ × ℚ × ℚ) (h : inUnit v) :
    linearSet c v =
      (⟨v.1, v.2.1, v.2.2, c.a, c.workspace, Cache.empty⟩, none) := by
  obtain ⟨h1, h2, h3, h4, h5, h6⟩ := h
  unfold linearSet
  dsimp only
  rw [setR_ok _ _ h1 h2]
  simp only [andThen]
  rw [setG_ok _ _ h3 h4]
  simp only [andThen]
  rw [setB_ok _ _ h5 h6]

theorem srgbSet_ok (γ : Gamma) (c : Color) (v : ℚ × ℚ × ℚ)
    (h : inUnit (txDec γ v.1, txDec γ v.2.1, txDec γ v.2.2)) :
    srgbSet γ c v =
      (⟨txDec γ v.1, txDec γ v.2.1, txDec γ v.2.2, c.a, c.workspace,
        Cache.empty⟩, none) := by
  obtain ⟨h1, h2, h3, h4, h5, h6⟩ := h
  unfold srgbSet
  dsimp only
  rw [setR_ok _ _ h1 h2]
  simp only [andThen]
  rw [setG_ok _ _ h3 h4]
  simp only [andThen]
  rw [setB_ok _ _ h5 h6]

theorem rgbSet_ok (γ : Gamma) (c : Color) (v : ℚ × ℚ × ℚ)
    (h : inUnit (rgbWriteBack γ c.workspace v)) :
    rgbSet γ c v =
      (⟨(rgbWriteBack γ c.workspace v).1, (rgbWriteBack γ c.workspace v).2.1,
        (rgbWriteBack γ c.workspace v).2.2, c.a, c.workspace, Cache.empty⟩,
       none) := by
  obtain ⟨r, g, b, a, w, sp⟩ := c
  cases w with
  | srgb => exact srgbSet_ok γ ⟨r, g, b, a, Workspace.srgb, sp⟩ v h
  | linear_rgb => exact linearSet_ok ⟨r, g, b, a, Workspace.linear_rgb, sp⟩ v h

theorem setSpace_ok (γ : Gamma) (n : SpaceName) (c : Color) (v : ℚ × ℚ × ℚ)
    (h : inUnit (specWriteBack γ c.workspace n v)) :
    setSpace γ n c v =
      (⟨(specWriteBack γ c.workspace n v).1,
        (specWriteBack γ c.workspace n v).2.1,
        (specWriteBack γ c.workspace n v).2.2,
        c.a, c.workspace, Cache.empty⟩, none) := by
  cases n with
  | srgb => exact srgbSet_ok γ c v h
  | linear_rgb => exact linearSet_ok c v h
  | rgb8 =>
    show rgb8Set γ c v = _
    unfold rgb8Set
    exact rgbSet_ok γ {c with spaces := Cache.empty} _ h
  | hls =>
    show hlsSet γ c v = _
    unfold hlsSet
    exact rgbSet_ok γ {c with spaces := Cache.empty} _ h
  | hsl =>
    show hslSet γ c v = _
    unfold hslSet hlsSet
    exact rgbSet_ok γ {({c with spaces := Cache.empty} : Color) with
      spaces := Cache.empty} _ h
  | yiq =>
    show yiqSet γ c v = _
    unfold yiqSet
    exact rgbSet_ok γ {c with spaces := Cache.empty} _ h

unseal Rat.add Rat.mul Rat.inv Rat.sub Rat.ofScientific in
/-- C1: the claim states that a successful assignment to a channel accessor
empties the `spaces` cache.  The code contradicts it: on
`Color(linear_rgb=(1/4, 1/2, 3/4))` with `linear_rgb` read and cached, the
assignment `c.r = 9/10` succeeds and stores the channel, yet the cache is
not empty and the cached projection still answers with the stale coordinate
`1/4` (the `clamped_property` setter never touches `self.spaces`). -/
theorem c1_channel_set_keeps_stale_cache :
    c1SetResult.2 = none ∧
    c1SetResult.1.r = 9 / 10 ∧
    c1SetResult.1.spaces ≠ Cache.empty ∧
    (linearGet c1SetResult.1).1.coordD ("r") = 1 / 4 := by
  decide

unseal Rat.add Rat.mul Rat.inv Rat.sub Rat.ofScientific in
/-- C2 counterexample: on `Color(linear_rgb=(0.001, 0.002, 0.003))` the
lightness coordinate of `c.hls` differs from the lightness of the standard
RGB→HLS transform applied to the canonical linear channels, because the
code feeds `self.rgb` (the gamma-encoded srgb projection) to the transform.
Every transfer-function evaluation here stays in the linear branch, so the
`gammaId` stand-in is never consulted. -/
theorem c2_hls_not_from_linear_channels :
    (hlsGet gammaId c2Color).1.coordD ("l")
      ≠ (rgb_to_hls c2Color.r c2Color.g c2Color.b).2.1 := by
  decide

/-- C2 as amended: for a color with the default `srgb` workspace (and no
stale cache entries), reading `hls` yields the standard RGB→HLS transform
applied to the gamma-encoded srgb coordinates of the canonical channels,
not to the linear channels themselves. -/
theorem c2_hls_derived_from_workspace (γ : Gamma) (c : Color)
    (hh : c.spaces.hls = none) (hs : c.spaces.srgb = none)
    (hw : c.workspace = Workspace.srgb) :
    ((hlsGet γ c).1.coordD ("h"), (hlsGet γ c).1.coordD ("l"),
      (hlsGet γ c).1.coordD ("s"))
      = rgb_to_hls (txEnc γ c.r) (txEnc γ c.g) (txEnc γ c.b) := by
  unfold hlsGet rgbGet
  rw [hh, hw]
  unfold srgbGet
  rw [hs]
  simp [CSpace.make, CSpace.coordD, CSpace.lookup, srgbCoords, List.find?]

/-- Witness for the amended C2 theorem at the concrete color with linear
channels (1/8, 1/8, 1/8), fresh cache and default workspace. -/
theorem c2_hls_derived_from_workspace_witness :
    ((hlsGet gammaId ⟨1 / 8, 1 / 8, 1 / 8, 1, Workspace.srgb,
        Cache.empty⟩).1.coordD ("h"),
      (hlsGet gammaId ⟨1 / 8, 1 / 8, 1 / 8, 1, Workspace.srgb,
        Cache.empty⟩).1.coordD ("l"),
      (hlsGet gammaId ⟨1 / 8, 1 / 8, 1 / 8, 1, Workspace.srgb,
        Cache.empty⟩).1.coordD ("s"))
      = rgb_to_hls (txEnc gammaId (1 / 8)) (txEnc gammaId (1 / 8))
          (txEnc gammaId (1 / 8)) :=
  c2_hls_derived_from_workspace gammaId
    ⟨1 / 8, 1 / 8, 1 / 8, 1, Workspace.srgb, Cache.empty⟩ rfl rfl rfl

unseal Rat.add Rat.mul Rat.inv Rat.sub Rat.ofScientific in
/-- C3: the claim covers hex inputs without a leading `'#'` as well, but
`__init__` only parses `descr` when it starts with `'#'`.  On the valid
6-digit input `"0a0bcc"` the constructor raises nothing and silently keeps
the black default, so `hex` answers `"#000000"` instead of the normalised
`"#0a0bcc"` — even though `hex_to_rgb` itself accepts the string. -/
theorem c3_hex_roundtrip_fails_without_hash :
    c3Result.2 = none ∧
    c3Result.1 = colorInit0 1 Workspace.srgb ∧
    hex_to_rgb ("0a0bcc") = Except.ok (10, 11, 204) ∧
    (hexGet gammaId c3Result.1).1 = "#000000" := by
  decide

unseal Rat.add Rat.mul Rat.inv Rat.sub Rat.ofScientific in
/-- C4: the claim states that coordinate lookup by a non-axis name fails
with `UnknownAxis`.  On the `linear_rgb` projection of a fresh color,
attribute lookup of the non-axis `"q"` instead returns Python `None`
(`__getattr__` falls off its end without raising); lookup of the axis
`"r"` returns the cached value, and only subscript lookup raises
(`KeyError`). -/
theorem c4_unknown_axis_lookup_returns_none :
    c4Space.attr ("q") = none ∧
    c4Space.attr ("r") = some 0 ∧
    c4Space.getItem ("q") = Except.error PErr.keyError := by
  decide

unseal Rat.add Rat.mul Rat.inv Rat.sub Rat.ofScientific in
/-- C5: the claim states a failed assignment leaves the prior state fully
unchanged.  The code contradicts it: on a color with channels
(1/4, 1/4, 1/4) and a cached `linear_rgb` projection, the assignment
`c.linear_rgb = (1/2, 3/2, 1/2)` raises `OutOfRange` on the middle channel,
yet afterwards `r` has already been updated to 1/2 and the projection cache
has already been cleared — a partial-failure state. -/
theorem c5_failed_assignment_leaves_partial_state :
    c5Result.2 = some PErr.outOfRange ∧
    c5Color0.r = 1 / 4 ∧
    c5Color0.spaces ≠ Cache.empty ∧
    c5Result.1.r = 1 / 2 ∧
    c5Result.1.g = 1 / 4 ∧
    c5Result.1.spaces = Cache.empty := by
  decide

unseal Rat.add Rat.mul Rat.inv Rat.sub Rat.ofScientific in
/-- C6 counterexample: the 9-digit input (neither 3 nor 6 digits) is
accepted — `hex_to_rgb` only rejects lengths that are not a multiple of
three, and the whole construction succeeds with no error. -/
theorem c6_nine_digit_hex_accepted :
    hex_to_rgb ("#000000000") = Except.ok (0, 0, 0) ∧
    (colorNewStr gammaId ("#000000000") 1 Workspace.srgb).2 = none := by
  decide

/-- C6 as amended: a hex string whose length after stripping `'#'` is not a
multiple of three fails with `InvalidFormat` (lengths that are multiples of
three, such as 0, 9 or 12, pass the length check). -/
theorem c6_non_multiple_of_three_rejected (h : String)
    (hl : (stripHash h).length % 3 ≠ 0) :
    hex_to_rgb h = Except.error PErr.invalidFormat := by
  unfold hex_to_rgb
  dsimp only
  rw [if_pos hl]

/-- Witness for the amended C6 theorem on the 5-digit input `"ababa"`. -/
theorem c6_non_multiple_of_three_rejected_witness :
    (stripHash ("ababa")).length % 3 ≠ 0 ∧
    hex_to_rgb ("ababa") = Except.error PErr.invalidFormat :=
  ⟨by decide, c6_non_multiple_of_three_rejected ("ababa") (by decide)⟩

unseal Rat.add Rat.mul Rat.inv Rat.sub Rat.ofScientific in
/-- C7: the claim states that a valid hex string without `'#'` constructs
the same color as with `'#'`.  The code contradicts it: `Color("0a0a0a")`
silently keeps the black default while `Color("#0a0a0a")` parses the
string, so the canonical channels differ (0 versus 50/16473; the gamma
decode of 10/255 stays in the linear branch, so the value is exact). -/
theorem c7_missing_hash_changes_color :
    c7NoHash.2 = none ∧
    c7WithHash.2 = none ∧
    c7NoHash.1.r = 0 ∧
    c7WithHash.1.r = 50 / 16473 ∧
    c7NoHash.1.r ≠ c7WithHash.1.r := by
  decide

unseal Rat.add Rat.mul Rat.inv Rat.sub Rat.ofScientific in
/-- C8: the claim states that an alpha assignment outside [0, 1] fails with
`OutOfRange` and leaves alpha unchanged.  The code contradicts it: `a` is a
plain instance attribute (the `_a` backing field that `__init__`
initialises is never wired to a `clamped_property`), so `c.a = 5` stores 5
without raising — while the same value assigned to the channel `r` does
raise `OutOfRange`. -/
theorem c8_alpha_set_skips_validation :
    setA (colorInit0 1 Workspace.srgb) 5
      = ⟨0, 0, 0, 5, Workspace.srgb, Cache.empty⟩ ∧
    (setR (colorInit0 1 Workspace.srgb) 5).2 = some PErr.outOfRange := by
  decide

/-- C9: mutating one coordinate of a cached ColorSpace by axis name updates
that coordinate and immediately assigns the full updated tuple (all axes in
order) to the parent's projection property; when the write-back values are
in range the parent's canonical channels become exactly the write-back of
the full tuple, and the parent's projection cache is empty afterwards. -/
theorem c9_coordinate_mutation_full_writeback (γ : Gamma) (c : Color)
    (s : CSpace) (k : String) (v : ℚ)
    (hk : (s.coords.find? (fun p => p.1 == k)).isSome = true)
    (hu : inUnit (specWriteBack γ c.workspace s.name
            (listToTriple (CSpace.tuple (s.updateCoord k v))))) :
    spaceSetAttr γ c s k v =
      (s.updateCoord k v,
       ⟨(specWriteBack γ c.workspace s.name
           (listToTriple (CSpace.tuple (s.updateCoord k v)))).1,
        (specWriteBack γ c.workspace s.name
           (listToTriple (CSpace.tuple (s.updateCoord k v)))).2.1,
        (specWriteBack γ c.workspace s.name
           (listToTriple (CSpace.tuple (s.updateCoord k v)))).2.2,
        c.a, c.workspace, Cache.empty⟩,
       none) := by
  unfold spaceSetAttr
  rw [if_pos hk]
  dsimp only
  rw [setSpace_ok γ s.name c _ hu]

unseal Rat.add Rat.mul Rat.inv Rat.sub Rat.ofScientific in
/-- Witness for C9: on the cached `linear_rgb` space (1/4, 1/2, 3/4) of a
matching parent, setting axis `"g"` to 1/10 rewrites the parent's channels
to (1/4, 1/10, 3/4) and leaves the cache empty. -/
theorem c9_coordinate_mutation_full_writeback_witness :
    ((CSpace.make SpaceName.linear_rgb
        [(("r"), 1 / 4), (("g"), 1 / 2), (("b"), 3 / 4)]).coords.find?
          (fun p => p.1 == "g")).isSome = true ∧
    spaceSetAttr gammaId ⟨1 / 4, 1 / 2, 3 / 4, 1, Workspace.srgb, Cache.empty⟩
        (CSpace.make SpaceName.linear_rgb
          [(("r"), 1 / 4), (("g"), 1 / 2), (("b"), 3 / 4)]) ("g") (1 / 10)
      = (CSpace.make SpaceName.linear_rgb
           [(("r"), 1 / 4), (("g"), 1 / 10), (("b"), 3 / 4)],
         ⟨1 / 4, 1 / 10, 3 / 4, 1, Workspace.srgb, Cache.empty⟩, none) := by
  refine ⟨by decide, ?_⟩
  rw [c9_coordinate_mutation_full_writeback gammaId
    ⟨1 / 4, 1 / 2, 3 / 4, 1, Workspace.srgb, Cache.empty⟩
    (CSpace.make SpaceName.linear_rgb
      [(("r"), 1 / 4), (("g"), 1 / 2), (("b"), 3 / 4)]) ("g") (1 / 10)
    (by decide) (by decide)]
  decide

/-- C10: writing alpha (`c.a = v`) changes only the alpha attribute; the
canonical channels, the workspace and the projection cache — hence every
cached ColorSpace instance — are exactly as before the write, for every
value `v`. -/
theorem c10_alpha_write_frame (c : Color) (v : ℚ) :
    (setA c v).r = c.r ∧ (setA c v).g = c.g ∧ (setA c v).b = c.b ∧
    (setA c v).workspace = c.workspace ∧ (setA c v).spaces = c.spaces ∧
    (setA c v).a = v := by
  simp [setA]

end Palette
